import Mathlib

/-!
# TaskFlow task-management core: verified embedding

Shallow embedding of the in-memory entity store (server/storage.ts, class
MemStorage) and of the task REST handlers (server/routes.ts) of the TaskFlow
repository, together with theorems about cascade deletion, default filling,
partial updates, identifier allocation and notification side effects.

Representation choices:
* Each JavaScript Map collection is embedded as an insertion-ordered list of
  entities; throughout the source every Map key equals the stored entity's id
  field, so lookup, replace-or-append and delete are keyed by that field
  (helpers findBy, putBy below).
* Timestamps are natural numbers (epoch milliseconds); each operation that
  calls the system clock takes the current time as an explicit parameter.
* A JSON request body cannot contain an undefined value, so a partial-update
  payload field is an Option: none means the key is absent from the payload.
* The current shared schema module (the revision that adds taskType,
  parentTaskId, epicId and the notifications table) is not part of the
  provided sources; its tasks table and insert schema are modelled from the
  older schema revision that is present plus the spec wording, keeping the
  drizzle-zod semantics visible in the older revision: createInsertSchema
  maps a text column to a plain string validator (no non-emptiness check)
  and makes a column optional when it is nullable or carries a database-side
  default; parsing never injects those defaults into the parsed value.
-/

namespace TaskFlow

/-- Task record as stored by MemStorage.  createTask spreads the validated
insert payload, so every column that the payload may omit is an Option and
is stored absent (none) when omitted; the database-side defaults declared in
the schema are never applied on this path. -/
structure Task where
  id : Nat
  title : String
  workspaceId : Nat
  description : Option String := none
  status : Option String := none
  priority : Option String := none
  assigneeId : Option Nat := none
  dueDate : Option Nat := none
  startDate : Option Nat := none
  completed : Option Bool := none
  position : Option Int := none
  taskType : Option String := none
  parentTaskId : Option Nat := none
  epicId : Option Nat := none
  deriving Repr, DecidableEq

/-- Output of insertTaskSchema.parse: title and workspaceId are required
(notNull without default), every other picked column is optional. -/
structure InsertTask where
  title : String
  workspaceId : Nat
  description : Option String := none
  status : Option String := none
  priority : Option String := none
  assigneeId : Option Nat := none
  dueDate : Option Nat := none
  startDate : Option Nat := none
  completed : Option Bool := none
  position : Option Int := none
  taskType : Option String := none
  parentTaskId : Option Nat := none
  epicId : Option Nat := none
  deriving Repr, DecidableEq

/-- Output of insertTaskSchema.partial().parse: every field optional.
none means the key is absent from the PATCH payload. -/
structure PartialInsertTask where
  title : Option String := none
  workspaceId : Option Nat := none
  description : Option String := none
  status : Option String := none
  priority : Option String := none
  assigneeId : Option Nat := none
  dueDate : Option Nat := none
  startDate : Option Nat := none
  completed : Option Bool := none
  position : Option Int := none
  taskType : Option String := none
  parentTaskId : Option Nat := none
  epicId : Option Nat := none
  deriving Repr, DecidableEq

/-- Raw JSON body of POST /api/tasks before schema validation (known keys
only: zod strips unknown keys; a missing key is none). -/
structure RawTask where
  title : Option String := none
  workspaceId : Option Nat := none
  description : Option String := none
  status : Option String := none
  priority : Option String := none
  assigneeId : Option Nat := none
  dueDate : Option Nat := none
  startDate : Option Nat := none
  completed : Option Bool := none
  position : Option Int := none
  taskType : Option String := none
  parentTaskId : Option Nat := none
  epicId : Option Nat := none
  deriving Repr, DecidableEq

/-- Subtask row (id, taskId, title, completed). -/
structure Subtask where
  id : Nat
  taskId : Nat
  title : String
  completed : Option Bool := none
  deriving Repr, DecidableEq

/-- Output of insertSubtaskSchema.parse. -/
structure InsertSubtask where
  taskId : Nat
  title : String
  completed : Option Bool := none
  deriving Repr, DecidableEq

/-- Comment row; createdAt is assigned by the server at creation. -/
structure Comment where
  id : Nat
  taskId : Nat
  userId : Nat
  content : String
  createdAt : Nat
  deriving Repr, DecidableEq

/-- Output of insertCommentSchema.parse. -/
structure InsertComment where
  taskId : Nat
  userId : Nat
  content : String
  deriving Repr, DecidableEq

/-- Notification row as stored by MemStorage. -/
structure Notification where
  id : Nat
  userId : Nat
  taskId : Option Nat := none
  title : String
  message : String
  type : String
  isRead : Bool
  createdAt : Nat
  deriving Repr, DecidableEq

/-- Notification insert payload as the route handlers construct it (they
always pass isRead and createdAt; createNotification overrides both). -/
structure InsertNotification where
  userId : Nat
  taskId : Option Nat := none
  title : String
  message : String
  type : String
  isRead : Bool
  createdAt : Nat
  deriving Repr, DecidableEq

/-- JavaScript Map.get keyed by the entity id field. -/
def findBy (key : α → Nat) (l : List α) (i : Nat) : Option α :=
  l.find? (fun e => key e == i)

/-- JavaScript Map.set keyed by the entity id field: replace in place when
the key is present, append otherwise. -/
def putBy (key : α → Nat) (l : List α) (v : α) : List α :=
  if l.any (fun e => key e == key v) then
    l.map (fun e => if key e == key v then v else e)
  else
    l ++ [v]

/-- The in-memory store: one collection and one id counter per entity type
covered by the specified core (users and workspaces carry no claim here). -/
structure MemStorage where
  tasks : List Task := []
  subtasks : List Subtask := []
  comments : List Comment := []
  notifications : List Notification := []
  taskId : Nat := 1
  subtaskId : Nat := 1
  commentId : Nat := 1
  notificationId : Nat := 1
  deriving Repr, DecidableEq

/-- The store as the constructor initializes it before sample seeding:
empty collections, every counter at 1. -/
def emptyStorage : MemStorage := {}

/-- MemStorage.getTask: plain Map lookup. -/
def MemStorage.getTask (s : MemStorage) (id : Nat) : Option Task :=
  findBy Task.id s.tasks id

/-- MemStorage.createTask: allocate the next task id, spread the insert
payload with the id, store.  No field defaulting happens here. -/
def MemStorage.createTask (s : MemStorage) (p : InsertTask) : Task × MemStorage :=
  let id := s.taskId
  let task : Task :=
    { id := id, title := p.title, workspaceId := p.workspaceId
      description := p.description, status := p.status, priority := p.priority
      assigneeId := p.assigneeId, dueDate := p.dueDate, startDate := p.startDate
      completed := p.completed, position := p.position, taskType := p.taskType
      parentTaskId := p.parentTaskId, epicId := p.epicId }
  (task, { s with tasks := putBy Task.id s.tasks task, taskId := id + 1 })

/-- One field of the spread-merge of updateTask: a key present in the
partial payload overrides, an absent key leaves the stored value. -/
def oMerge (p old : Option α) : Option α :=
  match p with
  | some v => some v
  | none => old

/-- The object spread of the existing task with the partial payload. -/
def mergeTask (t : Task) (p : PartialInsertTask) : Task :=
  { id := t.id
    title := p.title.getD t.title
    workspaceId := p.workspaceId.getD t.workspaceId
    description := oMerge p.description t.description
    status := oMerge p.status t.status
    priority := oMerge p.priority t.priority
    assigneeId := oMerge p.assigneeId t.assigneeId
    dueDate := oMerge p.dueDate t.dueDate
    startDate := oMerge p.startDate t.startDate
    completed := oMerge p.completed t.completed
    position := oMerge p.position t.position
    taskType := oMerge p.taskType t.taskType
    parentTaskId := oMerge p.parentTaskId t.parentTaskId
    epicId := oMerge p.epicId t.epicId }

/-- MemStorage.updateTask: shallow merge over the existing task; absent id
yields (none, unchanged store). -/
def MemStorage.updateTask (s : MemStorage) (id : Nat) (p : PartialInsertTask) :
    Option Task × MemStorage :=
  match s.getTask id with
  | none => (none, s)
  | some ex =>
    let updated := mergeTask ex p
    (some updated, { s with tasks := putBy Task.id s.tasks updated })

/-- MemStorage.updateTaskStatus: single-field update of status. -/
def MemStorage.updateTaskStatus (s : MemStorage) (id : Nat) (status : String) :
    Option Task × MemStorage :=
  match s.getTask id with
  | none => (none, s)
  | some ex =>
    let updated := { ex with status := some status }
    (some updated, { s with tasks := putBy Task.id s.tasks updated })

/-- MemStorage.deleteTask: collect the subtasks and comments whose taskId
equals the deleted id and delete each by its own id, then delete the task;
the returned boolean reports whether the task existed (Map.delete). -/
def MemStorage.deleteTask (s : MemStorage) (id : Nat) : Bool × MemStorage :=
  let subMatches := s.subtasks.filter (fun st => st.taskId == id)
  let subtasks := subMatches.foldl
    (fun acc st => acc.filter (fun e => e.id != st.id)) s.subtasks
  let comMatches := s.comments.filter (fun c => c.taskId == id)
  let comments := comMatches.foldl
    (fun acc c => acc.filter (fun e => e.id != c.id)) s.comments
  (s.tasks.any (fun t => t.id == id),
   { s with subtasks := subtasks, comments := comments
            tasks := s.tasks.filter (fun t => t.id != id) })

/-- MemStorage.createSubtask: allocate the next subtask id and store; the
referenced taskId is not checked against the tasks collection. -/
def MemStorage.createSubtask (s : MemStorage) (p : InsertSubtask) :
    Subtask × MemStorage :=
  let id := s.subtaskId
  let st : Subtask := { id := id, taskId := p.taskId, title := p.title
                        completed := p.completed }
  (st, { s with subtasks := putBy Subtask.id s.subtasks st, subtaskId := id + 1 })

/-- MemStorage.createComment: allocate the next comment id, stamp the
current time, store. -/
def MemStorage.createComment (s : MemStorage) (p : InsertComment) (now : Nat) :
    Comment × MemStorage :=
  let id := s.commentId
  let c : Comment := { id := id, taskId := p.taskId, userId := p.userId
                       content := p.content, createdAt := now }
  (c, { s with comments := putBy Comment.id s.comments c, commentId := id + 1 })

/-- MemStorage.createNotification: allocate the next notification id and
store the payload with isRead forced to false and createdAt stamped with the
current time, overriding whatever the payload carried for those fields. -/
def MemStorage.createNotification (s : MemStorage) (p : InsertNotification)
    (now : Nat) : Notification × MemStorage :=
  let id := s.notificationId
  let n : Notification :=
    { id := id, userId := p.userId, taskId := p.taskId, title := p.title
      message := p.message, type := p.type, isRead := false, createdAt := now }
  (n, { s with notifications := putBy Notification.id s.notifications n
               notificationId := id + 1 })

/-- insertTaskSchema.parse on a JSON body: title and workspaceId must be
present (notNull columns without defaults); every other column is optional
and passes through unchanged.  drizzle-zod maps a text column to a plain
string validator, so the empty string is a valid title, and parsing never
fills the database-side column defaults. -/
def parseInsertTask (r : RawTask) : Option InsertTask :=
  match r.title, r.workspaceId with
  | some title, some wid =>
    some { title := title, workspaceId := wid
           description := r.description, status := r.status
           priority := r.priority, assigneeId := r.assigneeId
           dueDate := r.dueDate, startDate := r.startDate
           completed := r.completed, position := r.position
           taskType := r.taskType, parentTaskId := r.parentTaskId
           epicId := r.epicId }
  | _, _ => none

/-- Result of POST /api/tasks: 201 with the created task, or 400 on a
ZodError. -/
inductive PostResult where
  | created (t : Task)
  | invalid
  deriving Repr, DecidableEq

/-- POST /api/tasks: validate, create the task, then create a best-effort
task_created notification targeted at the admin user. -/
def postTaskHandler (s : MemStorage) (r : RawTask) (now : Nat) :
    PostResult × MemStorage :=
  match parseInsertTask r with
  | none => (PostResult.invalid, s)
  | some data =>
    let (task, s1) := s.createTask data
    let msg := "Task \"" ++ task.title ++ "\" has been created"
      ++ (match task.taskType with
          | some tt => if tt != "" then " with type: " ++ tt else ""
          | none => "")
      ++ (match task.priority with
          | some pr => if pr != "" then " | Priority: " ++ pr else ""
          | none => "")
      ++ (match task.dueDate with
          | some d => " | Due: " ++ toString d
          | none => "")
    let payload : InsertNotification :=
      { title := "New Task Created", message := msg, taskId := some task.id
        userId := 1, type := "task_created", isRead := false, createdAt := now }
    let (_, s2) := s1.createNotification payload now
    (PostResult.created task, s2)

/-- The significant-field messages collected by PATCH /api/tasks/:id: a
field counts only when its key is present in the parsed payload and its
value is truthy (non-empty string, non-zero assignee id; a Date object is
always truthy). -/
def significantFields (p : PartialInsertTask) : List String :=
  (match p.status with
   | some v => if v != "" then ["Status: " ++ v] else []
   | none => [])
  ++ (match p.priority with
      | some v => if v != "" then ["Priority: " ++ v] else []
      | none => [])
  ++ (match p.assigneeId with
      | some v => if v != 0 then ["Assigned to user ID: " ++ toString v] else []
      | none => [])
  ++ (match p.dueDate with
      | some v => ["Due date: " ++ toString v]
      | none => [])
  ++ (match p.taskType with
      | some v => if v != "" then ["Task type: " ++ v] else []
      | none => [])

/-- PATCH /api/tasks/:id: validate the partial payload, merge it, and when
at least one significant field was touched create one task_updated
notification targeted at the admin user.  Returns none for 404. -/
def patchTaskHandler (s : MemStorage) (id : Nat) (p : PartialInsertTask)
    (now : Nat) : Option Task × MemStorage :=
  let (r, s1) := s.updateTask id p
  match r with
  | none => (none, s1)
  | some task =>
    if (significantFields p).isEmpty then (some task, s1)
    else
      let payload : InsertNotification :=
        { title := "Task Updated"
          message := "Task \"" ++ task.title ++ "\" was updated: "
            ++ String.intercalate " | " (significantFields p)
          taskId := some task.id, userId := 1, type := "task_updated"
          isRead := false, createdAt := now }
      let (_, s2) := s1.createNotification payload now
      (some task, s2)

/-- One step of the identifier-allocation scenario: a task create or a task
delete. -/
inductive TaskOp where
  | create (p : InsertTask)
  | del (id : Nat)
  deriving Repr, DecidableEq

/-- Run a sequence of task creates and deletes, collecting the identifiers
returned by the creates in call order. -/
def runTaskOps (s : MemStorage) : List TaskOp → MemStorage × List Nat
  | [] => (s, [])
  | TaskOp.create p :: rest =>
    let (t, s1) := s.createTask p
    let (s2, ids) := runTaskOps s1 rest
    (s2, t.id :: ids)
  | TaskOp.del i :: rest => runTaskOps (s.deleteTask i).snd rest

/-- Store invariant: every stored task id is below the task counter
(maintained by construction there; sample seeding preserves it too). -/
def WfTasks (s : MemStorage) : Prop :=
  ∀ t ∈ s.tasks, t.id < s.taskId

/-- Minimal valid insert payload used by concrete scenarios. -/
def sampleInsert : InsertTask := { title := "t", workspaceId := 1 }

/-- The empty PATCH payload. -/
def emptyPartial : PartialInsertTask := {}

/-- The empty POST body. -/
def emptyRaw : RawTask := {}

/-- Store holding exactly the one task created from sampleInsert (id 1). -/
def oneTaskStore : MemStorage := (emptyStorage.createTask sampleInsert).snd

/-- The task created from sampleInsert in the empty store. -/
def sampleTask : Task := (emptyStorage.createTask sampleInsert).fst

/-- Store holding task 1 plus one subtask and one comment referencing it. -/
def cascadeStore : MemStorage :=
  let s1 := oneTaskStore
  let s2 := (s1.createSubtask { taskId := 1, title := "sub" }).snd
  (s2.createComment { taskId := 1, userId := 1, content := "hello" } 5).snd

/-- Store holding a single orphan subtask whose taskId references the
non-existent task 9999 (creatable because createSubtask does not check that
the referenced task exists). -/
def orphanStore : MemStorage :=
  (emptyStorage.createSubtask { taskId := 9999, title := "orphan" }).snd

/-! ## Collection lemmas -/

lemma find?_map_upd (key : α → Nat) (l : List α) (v : α)
    (h : l.any (fun e => key e == key v) = true) :
    (l.map (fun e => if key e == key v then v else e)).find?
      (fun e => key e == key v) = some v := by
  induction l with
  | nil => simp at h
  | cons a l ih =>
    by_cases ha : (key a == key v) = true
    · rw [List.map_cons, if_pos ha]
      simp
    · have ha' : (key a == key v) = false := by simpa using ha
      rw [List.map_cons, if_neg ha, List.find?_cons]
      simp only [ha']
      exact ih (by simpa [List.any_cons, ha'] using h)

lemma findBy_putBy_self (key : α → Nat) (l : List α) (v : α) :
    findBy key (putBy key l v) (key v) = some v := by
  unfold findBy putBy
  by_cases h : l.any (fun e => key e == key v) = true
  · rw [if_pos h]
    exact find?_map_upd key l v h
  · rw [if_neg h]
    have hn : l.find? (fun e => key e == key v) = none := by
      rw [List.find?_eq_none]
      intro x hx hbeq
      exact h (List.any_eq_true.mpr ⟨x, hx, hbeq⟩)
    simp [hn]

lemma putBy_mem_self (key : α → Nat) (l : List α) (v : α) :
    v ∈ putBy key l v := by
  unfold putBy
  by_cases h : l.any (fun e => key e == key v) = true
  · rw [if_pos h]
    obtain ⟨e, he, hp⟩ := List.any_eq_true.mp h
    exact List.mem_map.mpr ⟨e, he, by rw [if_pos hp]⟩
  · rw [if_neg h]
    simp

lemma putBy_append (key : α → Nat) (l : List α) (v : α)
    (h : ∀ e ∈ l, (key e == key v) = false) :
    putBy key l v = l ++ [v] := by
  unfold putBy
  rw [if_neg]
  intro hany
  obtain ⟨e, he, hp⟩ := List.any_eq_true.mp hany
  rw [h e he] at hp
  exact Bool.false_ne_true hp

lemma putBy_matching_eq (key : α → Nat) (l : List α) (v : α) :
    ∀ e ∈ putBy key l v, (key e == key v) = true → e = v := by
  intro e he hbeq
  unfold putBy at he
  by_cases h : l.any (fun e => key e == key v) = true
  · rw [if_pos h] at he
    obtain ⟨x, _, hx⟩ := List.mem_map.mp he
    by_cases hxm : (key x == key v) = true
    · rw [if_pos hxm] at hx; exact hx.symm
    · rw [if_neg hxm] at hx
      rw [hx] at hxm
      exact absurd hbeq hxm
  · rw [if_neg h] at he
    rcases List.mem_append.mp he with hl | hr
    · exact absurd (List.any_eq_true.mpr ⟨e, hl, hbeq⟩) h
    · simpa using hr

lemma putBy_eq_self (key : α → Nat) (l : List α) (v : α)
    (hmem : l.any (fun e => key e == key v) = true)
    (hall : ∀ e ∈ l, (key e == key v) = true → e = v) :
    putBy key l v = l := by
  unfold putBy
  rw [if_pos hmem]
  conv_rhs => rw [← List.map_id l]
  apply List.map_congr_left
  intro e he
  by_cases hp : (key e == key v) = true
  · rw [if_pos hp]; exact (hall e he hp).symm
  · rw [if_neg hp]; rfl

lemma foldl_del_general (key : α → Nat) (ms : List α) (l : List α) :
    ms.foldl (fun acc m => acc.filter (fun e => key e != key m)) l
      = l.filter (fun e => !(ms.any (fun m => key e == key m))) := by
  induction ms generalizing l with
  | nil => simp
  | cons m ms ih =>
    rw [List.foldl_cons, ih, List.filter_filter]
    apply List.filter_congr
    intro e _
    cases hb : (key e == key m) <;> simp [List.any_cons, hb, bne]

lemma foldl_del_eq_filter (key : α → Nat) (p : α → Bool) (l : List α)
    (hnd : (l.map key).Nodup) :
    (l.filter p).foldl (fun acc m => acc.filter (fun e => key e != key m)) l
      = l.filter (fun e => !(p e)) := by
  rw [foldl_del_general]
  apply List.filter_congr
  intro e he
  suffices hsuff : ((l.filter p).any (fun m => key e == key m)) = p e by
    rw [hsuff]
  cases hp : p e with
  | true =>
    exact List.any_eq_true.mpr ⟨e, List.mem_filter.mpr ⟨he, hp⟩, by simp⟩
  | false =>
    cases hany : ((l.filter p).any fun m => key e == key m) with
    | false => rfl
    | true =>
      obtain ⟨m, hmf, hbeq⟩ := List.any_eq_true.mp hany
      obtain ⟨hm, hpm⟩ := List.mem_filter.mp hmf
      have heq : key e = key m := by simpa using hbeq
      have hem : e = m := List.inj_on_of_nodup_map hnd he hm heq
      rw [hem] at hp
      rw [hpm] at hp
      exact hp

/-! ## Store operation lemmas -/

lemma getTask_id_eq {s : MemStorage} {id : Nat} {t : Task}
    (h : s.getTask id = some t) : t.id = id := by
  have := List.find?_some h
  simpa using this

lemma getTask_mem {s : MemStorage} {id : Nat} {t : Task}
    (h : s.getTask id = some t) : t ∈ s.tasks :=
  List.mem_of_find?_eq_some h

lemma updateTask_of_some {s : MemStorage} {id : Nat} {t : Task}
    (p : PartialInsertTask) (h : s.getTask id = some t) :
    s.updateTask id p =
      (some (mergeTask t p),
       { s with tasks := putBy Task.id s.tasks (mergeTask t p) }) := by
  unfold MemStorage.updateTask
  rw [h]

lemma updateTask_of_none {s : MemStorage} {id : Nat}
    (p : PartialInsertTask) (h : s.getTask id = none) :
    s.updateTask id p = (none, s) := by
  unfold MemStorage.updateTask
  rw [h]

lemma updateTask_notifications (s : MemStorage) (id : Nat)
    (p : PartialInsertTask) :
    (s.updateTask id p).snd.notifications = s.notifications := by
  unfold MemStorage.updateTask
  cases s.getTask id <;> rfl

lemma updateTask_notificationId (s : MemStorage) (id : Nat)
    (p : PartialInsertTask) :
    (s.updateTask id p).snd.notificationId = s.notificationId := by
  unfold MemStorage.updateTask
  cases s.getTask id <;> rfl

lemma updateTaskStatus_of_none {s : MemStorage} {id : Nat}
    (st : String) (h : s.getTask id = none) :
    s.updateTaskStatus id st = (none, s) := by
  unfold MemStorage.updateTaskStatus
  rw [h]

lemma deleteTask_fst (s : MemStorage) (id : Nat) :
    (s.deleteTask id).fst = s.tasks.any (fun t => t.id == id) := rfl

lemma deleteTask_tasks (s : MemStorage) (id : Nat) :
    (s.deleteTask id).snd.tasks = s.tasks.filter (fun t => t.id != id) := rfl

lemma deleteTask_notifications (s : MemStorage) (id : Nat) :
    (s.deleteTask id).snd.notifications = s.notifications := rfl

lemma deleteTask_taskId (s : MemStorage) (id : Nat) :
    (s.deleteTask id).snd.taskId = s.taskId := rfl

lemma deleteTask_subtasks (s : MemStorage) (id : Nat)
    (hnd : (s.subtasks.map Subtask.id).Nodup) :
    (s.deleteTask id).snd.subtasks
      = s.subtasks.filter (fun st => st.taskId != id) := by
  show (s.subtasks.filter (fun st => st.taskId == id)).foldl
    (fun acc st => acc.filter (fun e => e.id != st.id)) s.subtasks = _
  rw [foldl_del_eq_filter Subtask.id (fun st => st.taskId == id) s.subtasks hnd]
  apply List.filter_congr
  intro e _
  simp [bne]

lemma deleteTask_comments (s : MemStorage) (id : Nat)
    (hnd : (s.comments.map Comment.id).Nodup) :
    (s.deleteTask id).snd.comments
      = s.comments.filter (fun c => c.taskId != id) := by
  show (s.comments.filter (fun c => c.taskId == id)).foldl
    (fun acc c => acc.filter (fun e => e.id != c.id)) s.comments = _
  rw [foldl_del_eq_filter Comment.id (fun c => c.taskId == id) s.comments hnd]
  apply List.filter_congr
  intro e _
  simp [bne]

lemma getTask_filter_ne (s : MemStorage) (id : Nat) :
    (s.deleteTask id).snd.getTask id = none := by
  unfold MemStorage.getTask findBy
  rw [deleteTask_tasks, List.find?_eq_none]
  intro t ht hbeq
  have := (List.mem_filter.mp ht).2
  simp [bne] at this
  exact this (by simpa using hbeq)

lemma createNotification_push (s : MemStorage) (p : InsertNotification)
    (now : Nat) (hwfn : ∀ n ∈ s.notifications, n.id ≠ s.notificationId) :
    (s.createNotification p now).snd.notifications
      = s.notifications ++ [(s.createNotification p now).fst] := by
  show putBy Notification.id s.notifications _ = _
  apply putBy_append
  intro e he
  show (e.id == s.notificationId) = false
  simpa using hwfn e he

lemma patch_insignificant (s : MemStorage) (id : Nat) (p : PartialInsertTask)
    (now : Nat) (hsf : significantFields p = []) :
    (patchTaskHandler s id p now).snd.notifications = s.notifications := by
  unfold patchTaskHandler
  cases hgt : s.getTask id with
  | none =>
    rw [updateTask_of_none p hgt]
  | some t =>
    rw [updateTask_of_some p hgt, hsf]
    rfl

lemma patch_significant (s : MemStorage) (id : Nat) (p : PartialInsertTask)
    (now : Nat) (t : Task) (ht : s.getTask id = some t)
    (hie : (significantFields p).isEmpty = false)
    (hwfn : ∀ n ∈ s.notifications, n.id ≠ s.notificationId) :
    ∃ n, (patchTaskHandler s id p now).snd.notifications = s.notifications ++ [n]
      ∧ n.type = "task_updated" ∧ n.isRead = false ∧ n.createdAt = now := by
  unfold patchTaskHandler
  rw [updateTask_of_some p ht, hie]
  refine ⟨_, createNotification_push _ _ now ?_, rfl, rfl, rfl⟩
  exact hwfn

lemma oMerge_idem (p x : Option α) : oMerge p (oMerge p x) = oMerge p x := by
  cases p <;> rfl

lemma getD_idem (p : Option α) (x : α) : p.getD (p.getD x) = p.getD x := by
  cases p <;> rfl

lemma mergeTask_idem (t : Task) (p : PartialInsertTask) :
    mergeTask (mergeTask t p) p = mergeTask t p := by
  unfold mergeTask
  simp [oMerge_idem, getD_idem]

lemma putBy_mem (key : α → Nat) (l : List α) (v e : α) (he : e ∈ putBy key l v) :
    e ∈ l ∨ e = v := by
  unfold putBy at he
  by_cases h : l.any (fun x => key x == key v) = true
  · rw [if_pos h] at he
    obtain ⟨x, hx, hxe⟩ := List.mem_map.mp he
    by_cases hm : (key x == key v) = true
    · rw [if_pos hm] at hxe
      exact Or.inr hxe.symm
    · rw [if_neg hm] at hxe
      exact Or.inl (hxe ▸ hx)
  · rw [if_neg h] at he
    rcases List.mem_append.mp he with h1 | h1
    · exact Or.inl h1
    · exact Or.inr (by simpa using h1)

lemma wfTasks_createTask {s : MemStorage} (h : WfTasks s) (p : InsertTask) :
    WfTasks (s.createTask p).snd := by
  intro t ht
  show t.id < s.taskId + 1
  rcases putBy_mem Task.id s.tasks _ t ht with h1 | h1
  · exact Nat.lt_succ_of_lt (h t h1)
  · rw [h1]
    exact Nat.lt_succ_self s.taskId

lemma wfTasks_deleteTask {s : MemStorage} (h : WfTasks s) (i : Nat) :
    WfTasks (s.deleteTask i).snd := by
  intro t ht
  rw [deleteTask_tasks] at ht
  exact h t (List.mem_filter.mp ht).1

lemma wfTasks_runTaskOps {s : MemStorage} (h : WfTasks s) (ops : List TaskOp) :
    WfTasks (runTaskOps s ops).fst := by
  induction ops generalizing s with
  | nil => exact h
  | cons op rest ih =>
    cases op with
    | create p => exact ih (wfTasks_createTask h p)
    | del i => exact ih (wfTasks_deleteTask h i)

lemma getTask_lt_of_wf {s : MemStorage} {d : Nat} (h : WfTasks s)
    (hd : (s.getTask d).isSome = true) : d < s.taskId := by
  cases hgt : s.getTask d with
  | none => simp [hgt] at hd
  | some t =>
    have hid := getTask_id_eq hgt
    rw [← hid]
    exact h t (getTask_mem hgt)

lemma runTaskOps_ids_lb (s : MemStorage) (ops : List TaskOp) :
    ∀ i ∈ (runTaskOps s ops).snd, s.taskId ≤ i := by
  induction ops generalizing s with
  | nil =>
    intro i hi
    simp [runTaskOps] at hi
  | cons op rest ih =>
    cases op with
    | create p =>
      intro i hi
      have hsnd : (runTaskOps s (TaskOp.create p :: rest)).snd
          = s.taskId :: (runTaskOps (s.createTask p).snd rest).snd := rfl
      rw [hsnd] at hi
      rcases List.mem_cons.mp hi with h | h
      · exact h ▸ Nat.le_refl _
      · have hrest : (s.createTask p).snd.taskId ≤ i := ih _ i h
        exact Nat.le_of_succ_le hrest
    | del j =>
      intro i hi
      have hsnd : (runTaskOps s (TaskOp.del j :: rest)).snd
          = (runTaskOps (s.deleteTask j).snd rest).snd := rfl
      rw [hsnd] at hi
      exact ih ((s.deleteTask j).snd) i hi

lemma runTaskOps_pairwise (s : MemStorage) (ops : List TaskOp) :
    ((runTaskOps s ops).snd).Pairwise (· < ·) := by
  induction ops generalizing s with
  | nil => exact List.Pairwise.nil
  | cons op rest ih =>
    cases op with
    | create p =>
      have hsnd : (runTaskOps s (TaskOp.create p :: rest)).snd
          = s.taskId :: (runTaskOps (s.createTask p).snd rest).snd := rfl
      rw [hsnd]
      refine List.Pairwise.cons ?_ (ih _)
      intro j hj
      have hlb : (s.createTask p).snd.taskId ≤ j :=
        runTaskOps_ids_lb ((s.createTask p).snd) rest j hj
      exact Nat.lt_of_succ_le hlb
    | del j =>
      have hsnd : (runTaskOps s (TaskOp.del j :: rest)).snd
          = (runTaskOps (s.deleteTask j).snd rest).snd := rfl
      rw [hsnd]
      exact ih _

/-! ## Claim theorems -/

/-- C1: after deleteTask(T.id) returns true, the store contains no Subtask
whose taskId equals T.id and no Comment whose taskId equals T.id, getTask
of the deleted id is absent, and every Subtask and Comment referencing a
different task survives unchanged (the surviving collections are exactly
the filters by a different taskId).  The id-uniqueness hypotheses are the
store invariant maintained by id allocation. -/
theorem C1_cascade_completeness (s : MemStorage) (id : Nat)
    (_hdel : (s.deleteTask id).fst = true)
    (hs : (s.subtasks.map Subtask.id).Nodup)
    (hc : (s.comments.map Comment.id).Nodup) :
    (∀ st ∈ (s.deleteTask id).snd.subtasks, st.taskId ≠ id) ∧
    (∀ c ∈ (s.deleteTask id).snd.comments, c.taskId ≠ id) ∧
    (s.deleteTask id).snd.getTask id = none ∧
    (s.deleteTask id).snd.subtasks = s.subtasks.filter (fun st => st.taskId != id) ∧
    (s.deleteTask id).snd.comments = s.comments.filter (fun c => c.taskId != id) := by
  refine ⟨?_, ?_, getTask_filter_ne s id,
    deleteTask_subtasks s id hs, deleteTask_comments s id hc⟩
  · intro st hst
    rw [deleteTask_subtasks s id hs] at hst
    have := (List.mem_filter.mp hst).2
    simpa [bne] using this
  · intro c hcm
    rw [deleteTask_comments s id hc] at hcm
    have := (List.mem_filter.mp hcm).2
    simpa [bne] using this

/-- C1 witness: the concrete store with one task, one subtask and one
comment, deleting task 1. -/
theorem C1_cascade_completeness_witness :
    ((cascadeStore.deleteTask 1).fst = true ∧
     (cascadeStore.subtasks.map Subtask.id).Nodup ∧
     (cascadeStore.comments.map Comment.id).Nodup) ∧
    ((∀ st ∈ (cascadeStore.deleteTask 1).snd.subtasks, st.taskId ≠ 1) ∧
     (∀ c ∈ (cascadeStore.deleteTask 1).snd.comments, c.taskId ≠ 1) ∧
     (cascadeStore.deleteTask 1).snd.getTask 1 = none ∧
     (cascadeStore.deleteTask 1).snd.subtasks
       = cascadeStore.subtasks.filter (fun st => st.taskId != 1) ∧
     (cascadeStore.deleteTask 1).snd.comments
       = cascadeStore.comments.filter (fun c => c.taskId != 1)) :=
  ⟨⟨by decide, by decide, by decide⟩,
   C1_cascade_completeness cascadeStore 1 (by decide) (by decide) (by decide)⟩

/-- C7: for an existing task and any status string, updateTaskStatus
returns (and stores) the task with only the status field replaced; every
other field, in particular the completed flag, is unchanged. -/
theorem C7_status_update_frame (s : MemStorage) (id : Nat) (st : String)
    (t : Task) (h : s.getTask id = some t) :
    (s.updateTaskStatus id st).fst = some { t with status := some st } ∧
    (s.updateTaskStatus id st).snd.getTask id = some { t with status := some st } := by
  unfold MemStorage.updateTaskStatus
  rw [h]
  refine ⟨rfl, ?_⟩
  show findBy Task.id (putBy Task.id s.tasks _) id = _
  have hid0 : t.id = id := getTask_id_eq h
  have hid : ({ t with status := some st } : Task).id = id := hid0
  rw [← hid]
  exact findBy_putBy_self Task.id s.tasks _

/-- C7 witness: set status completed on the concrete one-task store; the
completed flag and all other fields are untouched. -/
theorem C7_status_update_frame_witness :
    oneTaskStore.getTask 1 = some sampleTask ∧
    ((oneTaskStore.updateTaskStatus 1 "completed").fst
        = some { sampleTask with status := some "completed" } ∧
     (oneTaskStore.updateTaskStatus 1 "completed").snd.getTask 1
        = some { sampleTask with status := some "completed" }) :=
  ⟨by decide, C7_status_update_frame oneTaskStore 1 "completed" sampleTask (by decide)⟩

/-- C9: deleteTask leaves the Notification collection entirely unchanged;
every notification present before, including any whose taskId references
the deleted task, is still present and unmodified. -/
theorem C9_delete_keeps_notifications (s : MemStorage) (id : Nat) :
    (s.deleteTask id).snd.notifications = s.notifications ∧
    ∀ n ∈ s.notifications, n ∈ (s.deleteTask id).snd.notifications := by
  refine ⟨rfl, ?_⟩
  intro n hn
  rw [deleteTask_notifications]
  exact hn

/-- C10: createNotification stores and returns a notification whose isRead
flag is false and whose createdAt is the server-assigned current time,
overriding whatever the insert payload carried for those two fields, while
the payload's user, task reference and type are stored verbatim. -/
theorem C10_notification_overrides (s : MemStorage) (p : InsertNotification)
    (now : Nat) :
    (s.createNotification p now).fst.isRead = false ∧
    (s.createNotification p now).fst.createdAt = now ∧
    (s.createNotification p now).fst.userId = p.userId ∧
    (s.createNotification p now).fst.taskId = p.taskId ∧
    (s.createNotification p now).fst.type = p.type ∧
    (s.createNotification p now).fst ∈ (s.createNotification p now).snd.notifications := by
  refine ⟨rfl, rfl, rfl, rfl, rfl, ?_⟩
  exact putBy_mem_self Notification.id s.notifications _

/-- C5: for every sequence of task creates interleaved with task deletes,
the identifiers returned by the creates are pairwise distinct and strictly
increasing in call order, and an identifier freed by a delete (it named a
task present in the store at that point) is never allocated again by any
later create. -/
theorem C5_identifier_allocation (s : MemStorage) (ops l1 l2 : List TaskOp)
    (d : Nat) (hwf : WfTasks s)
    (hd : ((runTaskOps s l1).fst.getTask d).isSome = true) :
    ((runTaskOps s ops).snd).Pairwise (· < ·) ∧
    d ∉ (runTaskOps ((runTaskOps s l1).fst.deleteTask d).snd l2).snd := by
  refine ⟨runTaskOps_pairwise s ops, ?_⟩
  intro hmem
  have hwf1 : WfTasks (runTaskOps s l1).fst := wfTasks_runTaskOps hwf l1
  have hdlt : d < (runTaskOps s l1).fst.taskId := getTask_lt_of_wf hwf1 hd
  have hlb : ((runTaskOps s l1).fst.deleteTask d).snd.taskId ≤ d :=
    runTaskOps_ids_lb _ l2 d hmem
  rw [deleteTask_taskId] at hlb
  exact absurd hlb (Nat.not_le_of_lt hdlt)

/-- C5 witness: create, delete the created id 1, create again: the ids
collected are pairwise increasing and 1 is never returned after its
deletion. -/
theorem C5_identifier_allocation_witness :
    (WfTasks emptyStorage ∧
     ((runTaskOps emptyStorage [TaskOp.create sampleInsert]).fst.getTask 1).isSome = true) ∧
    (((runTaskOps emptyStorage
        [TaskOp.create sampleInsert, TaskOp.del 1, TaskOp.create sampleInsert]).snd).Pairwise (· < ·) ∧
     1 ∉ (runTaskOps
        ((runTaskOps emptyStorage [TaskOp.create sampleInsert]).fst.deleteTask 1).snd
        [TaskOp.create sampleInsert]).snd) :=
  ⟨⟨fun t ht => absurd ht (List.not_mem_nil t), by decide⟩,
   C5_identifier_allocation emptyStorage
     [TaskOp.create sampleInsert, TaskOp.del 1, TaskOp.create sampleInsert]
     [TaskOp.create sampleInsert] [TaskOp.create sampleInsert] 1
     (fun t ht => absurd ht (List.not_mem_nil t)) (by decide)⟩

/-- C2: evaluation of the create path at the minimal body (title X,
workspaceId 1): the request is accepted and the task is stored, but the
absent fields stay absent in the stored record instead of receiving the
schema-declared defaults todo, medium, false, 0, adhoc — the in-memory
storage path never applies the column defaults declared by the schema. -/
theorem C2_defaults_not_filled :
    (postTaskHandler emptyStorage { emptyRaw with title := some "X", workspaceId := some 1 } 0).fst
      = PostResult.created { id := 1, title := "X", workspaceId := 1 } ∧
    (postTaskHandler emptyStorage { emptyRaw with title := some "X", workspaceId := some 1 } 0).snd.getTask 1
      = some { id := 1, title := "X", workspaceId := 1 } ∧
    ({ id := 1, title := "X", workspaceId := 1 } : Task).status = none ∧
    ({ id := 1, title := "X", workspaceId := 1 } : Task).priority = none ∧
    ({ id := 1, title := "X", workspaceId := 1 } : Task).completed = none ∧
    ({ id := 1, title := "X", workspaceId := 1 } : Task).position = none ∧
    ({ id := 1, title := "X", workspaceId := 1 } : Task).taskType = none := by
  decide

/-- C4 (amended): create-task validation rejects a body whose title key or
workspaceId key is missing, before any store mutation (the whole store is
returned unchanged); the validation is shape-only, so it checks neither
that the workspace exists nor that the title is non-empty. -/
theorem C4_validation_rejects_before_mutation (s : MemStorage) (r : RawTask)
    (now : Nat) (h : r.title = none ∨ r.workspaceId = none) :
    postTaskHandler s r now = (PostResult.invalid, s) := by
  unfold postTaskHandler parseInsertTask
  rcases h with h | h
  · rw [h]
  · rw [h]
    cases ht : r.title <;> exact rfl

/-- C4 witness: a body with no keys at all is rejected with the store
unchanged. -/
theorem C4_validation_rejects_before_mutation_witness :
    (emptyRaw.title = none ∨ emptyRaw.workspaceId = none) ∧
    postTaskHandler oneTaskStore emptyRaw 0 = (PostResult.invalid, oneTaskStore) :=
  ⟨Or.inl rfl,
   C4_validation_rejects_before_mutation oneTaskStore emptyRaw 0 (Or.inl rfl)⟩

/-- C4 counterexample: a body whose title is the empty string passes
validation — the task is created and stored, refuting the claim that an
empty title fails with a ValidationError. -/
theorem C4_empty_title_accepted :
    (postTaskHandler emptyStorage { emptyRaw with title := some "", workspaceId := some 1 } 0).fst
      ≠ PostResult.invalid ∧
    (postTaskHandler emptyStorage { emptyRaw with title := some "", workspaceId := some 1 } 0).snd.tasks.length
      = 1 := by
  decide

/-- C6 (amended): for an id absent from the tasks collection, updateTask
and updateTaskStatus return an absent result with the store unchanged, and
deleteTask returns false leaving tasks and notifications unchanged — but
deleteTask still removes any Subtasks and Comments whose taskId equals the
missing id (the cascade runs regardless of task existence). -/
theorem C6_not_found_semantics (s : MemStorage) (id : Nat)
    (p : PartialInsertTask) (st : String) (h : s.getTask id = none)
    (hs : (s.subtasks.map Subtask.id).Nodup)
    (hc : (s.comments.map Comment.id).Nodup) :
    s.updateTask id p = (none, s) ∧
    s.updateTaskStatus id st = (none, s) ∧
    (s.deleteTask id).fst = false ∧
    (s.deleteTask id).snd.tasks = s.tasks ∧
    (s.deleteTask id).snd.notifications = s.notifications ∧
    (s.deleteTask id).snd.subtasks = s.subtasks.filter (fun e => e.taskId != id) ∧
    (s.deleteTask id).snd.comments = s.comments.filter (fun e => e.taskId != id) := by
  have hall : ∀ t ∈ s.tasks, (t.id == id) = false := by
    intro t htm
    have := List.find?_eq_none.mp h t htm
    simpa using this
  refine ⟨updateTask_of_none p h, updateTaskStatus_of_none st h, ?_, ?_,
    deleteTask_notifications s id, deleteTask_subtasks s id hs,
    deleteTask_comments s id hc⟩
  · rw [deleteTask_fst]
    cases hany : s.tasks.any (fun t => t.id == id) with
    | false => rfl
    | true =>
      obtain ⟨t, htm, hp⟩ := List.any_eq_true.mp hany
      rw [hall t htm] at hp
      exact hp.symm
  · rw [deleteTask_tasks]
    apply List.filter_eq_self.mpr
    intro t htm
    have := hall t htm
    simp [bne, this]

/-- C6 witness: the orphan store, applied at the missing id 9999. -/
theorem C6_not_found_semantics_witness :
    (orphanStore.getTask 9999 = none ∧
     (orphanStore.subtasks.map Subtask.id).Nodup ∧
     (orphanStore.comments.map Comment.id).Nodup) ∧
    (orphanStore.updateTask 9999 emptyPartial = (none, orphanStore) ∧
     orphanStore.updateTaskStatus 9999 "todo" = (none, orphanStore) ∧
     (orphanStore.deleteTask 9999).fst = false ∧
     (orphanStore.deleteTask 9999).snd.tasks = orphanStore.tasks ∧
     (orphanStore.deleteTask 9999).snd.notifications = orphanStore.notifications ∧
     (orphanStore.deleteTask 9999).snd.subtasks
       = orphanStore.subtasks.filter (fun e => e.taskId != 9999) ∧
     (orphanStore.deleteTask 9999).snd.comments
       = orphanStore.comments.filter (fun e => e.taskId != 9999)) :=
  ⟨⟨by decide, by decide, by decide⟩,
   C6_not_found_semantics orphanStore 9999 emptyPartial "todo"
     (by decide) (by decide) (by decide)⟩

/-- C3: for an existing task, a PATCH whose payload carries only a
description produces zero new notifications; a PATCH that sets priority to
a non-empty value produces exactly one new notification of type
task_updated; and in general a PATCH whose payload touches none of status,
priority, assigneeId, dueDate, taskType leaves the notifications unchanged
(so a task_updated notification is produced only if one of those five
fields was touched). -/
theorem C3_notification_triggering (s : MemStorage) (id now : Nat)
    (d pr : String) (p : PartialInsertTask) (t : Task)
    (ht : s.getTask id = some t) (hpr : pr ≠ "")
    (hwfn : ∀ n ∈ s.notifications, n.id ≠ s.notificationId)
    (hp5 : p.status = none ∧ p.priority = none ∧ p.assigneeId = none ∧
           p.dueDate = none ∧ p.taskType = none) :
    (patchTaskHandler s id { description := some d } now).snd.notifications
        = s.notifications ∧
    (∃ n, (patchTaskHandler s id { priority := some pr } now).snd.notifications
        = s.notifications ++ [n] ∧ n.type = "task_updated" ∧ n.isRead = false ∧
        n.createdAt = now) ∧
    (patchTaskHandler s id p now).snd.notifications = s.notifications := by
  obtain ⟨h1, h2, h3, h4, h5⟩ := hp5
  refine ⟨patch_insignificant s id _ now rfl, ?_, ?_⟩
  · apply patch_significant s id _ now t ht ?_ hwfn
    have hb : (pr != "") = true := bne_iff_ne.mpr hpr
    simp [significantFields, hb]
  · apply patch_insignificant
    simp [significantFields, h1, h2, h3, h4, h5]

/-- C3 witness: the concrete one-task store, patched with a
description-only payload, a priority high payload, and the empty payload. -/
theorem C3_notification_triggering_witness :
    (oneTaskStore.getTask 1 = some sampleTask ∧ "high" ≠ "" ∧
     (∀ n ∈ oneTaskStore.notifications, n.id ≠ oneTaskStore.notificationId) ∧
     emptyPartial.priority = none) ∧
    ((patchTaskHandler oneTaskStore 1 { description := some "new text" } 0).snd.notifications
        = oneTaskStore.notifications ∧
     (∃ n, (patchTaskHandler oneTaskStore 1 { priority := some "high" } 0).snd.notifications
        = oneTaskStore.notifications ++ [n] ∧ n.type = "task_updated" ∧
        n.isRead = false ∧ n.createdAt = 0) ∧
     (patchTaskHandler oneTaskStore 1 emptyPartial 0).snd.notifications
        = oneTaskStore.notifications) :=
  ⟨⟨by decide, by decide, by decide, rfl⟩,
   C3_notification_triggering oneTaskStore 1 0 "new text" "high" emptyPartial
     sampleTask (by decide) (by decide) (by decide) ⟨rfl, rfl, rfl, rfl, rfl⟩⟩

/-- C8: for an existing task id, applying the same partial update twice in
succession returns the same task and leaves the store in the same state as
applying it once — the shallow merge is idempotent. -/
theorem C8_update_idempotent (s : MemStorage) (id : Nat)
    (p : PartialInsertTask) (t : Task) (h : s.getTask id = some t) :
    (s.updateTask id p).snd.updateTask id p = s.updateTask id p := by
  have h1 := updateTask_of_some p h
  have hid : (mergeTask t p).id = id := by
    show t.id = id
    exact getTask_id_eq h
  have hget1 : (s.updateTask id p).snd.getTask id = some (mergeTask t p) := by
    rw [h1]
    show findBy Task.id (putBy Task.id s.tasks (mergeTask t p)) id = _
    rw [← hid]
    exact findBy_putBy_self Task.id s.tasks (mergeTask t p)
  have h2 := updateTask_of_some p hget1
  rw [h2, mergeTask_idem, h1]
  have hmemu : (putBy Task.id s.tasks (mergeTask t p)).any
      (fun e => e.id == (mergeTask t p).id) = true :=
    List.any_eq_true.mpr
      ⟨mergeTask t p, putBy_mem_self Task.id s.tasks (mergeTask t p), by simp⟩
  have hpp : putBy Task.id (putBy Task.id s.tasks (mergeTask t p)) (mergeTask t p)
      = putBy Task.id s.tasks (mergeTask t p) :=
    putBy_eq_self Task.id (putBy Task.id s.tasks (mergeTask t p)) (mergeTask t p)
      hmemu (putBy_matching_eq Task.id s.tasks (mergeTask t p))
  rw [hpp]

/-- C8 witness: updating the concrete one-task store twice with the same
payload equals updating it once. -/
theorem C8_update_idempotent_witness :
    oneTaskStore.getTask 1 = some sampleTask ∧
    (oneTaskStore.updateTask 1 { description := some "d", priority := some "high" }).snd.updateTask
        1 { description := some "d", priority := some "high" }
      = oneTaskStore.updateTask 1 { description := some "d", priority := some "high" } :=
  ⟨by decide,
   C8_update_idempotent oneTaskStore 1
     { description := some "d", priority := some "high" } sampleTask (by decide)⟩

/-- C6 counterexample: on a store holding one orphan subtask referencing
the non-existent task 9999, deleteTask 9999 returns false yet mutates the
store (the orphan subtask is removed), refuting the claim that the store
is left unchanged in all three not-found cases. -/
theorem C6_delete_mutates_on_missing_id :
    orphanStore.getTask 9999 = none ∧
    (orphanStore.deleteTask 9999).fst = false ∧
    (orphanStore.deleteTask 9999).snd ≠ orphanStore ∧
    (orphanStore.deleteTask 9999).snd.subtasks = [] ∧
    orphanStore.subtasks.length = 1 := by
  decide

end TaskFlow
